import Mathlib

/-!
Verification of the feature-vector construction and prediction pipeline of
`src/app.py` (a Flask real-estate price predictor), as a shallow embedding.

Modelling conventions:
* JSON scalar values reaching the handler are modelled by `PyVal`
  (strings and numbers; Python floats are modelled exactly by `ℚ`).
* Python `int(x)` / `float(x)` coercions are partial: they are modelled by
  `Option`-valued functions (`none` = the Python call raises).
* The pickled artifacts `model` / `label_encoders` are opaque collaborators:
  a model is a declared feature count plus an uninterpreted inference
  function, and the label encoders are an association list from field name
  to the encoder's ordered `classes_` list (sklearn's `LabelEncoder.transform`
  returns the index of a label inside the sorted `classes_` array).
* Flask responses are modelled by `Response`: either a JSON success payload
  or a `(status, message)` error. The detail text attached by the generic
  exception handler (`str(e)`) is abstracted to a fixed prefix.
-/

set_option maxRecDepth 10000

/-- A JSON scalar value as received by the Flask handler. -/
inductive PyVal where
  | vStr (s : String)
  | vNum (q : ℚ)
  deriving DecidableEq, Repr

/-- Raw request body: a field mapping, `data` in `predict`. -/
def RawInput := List (String × PyVal)

/-- The label-encoder artifact: field name ↦ ordered `classes_` list. -/
def Vocab := List (String × List String)

/-- `d.get(k, default)` on a Python dict. -/
def dictGetD (input : RawInput) (k : String) (d : PyVal) : PyVal :=
  match input.find? (fun p => p.1 == k) with
  | some p => p.2
  | none => d

/-- `d.get(k)` presence: `some v` when the key is present. -/
def dictGet (input : RawInput) (k : String) : Option PyVal :=
  (input.find? (fun p => p.1 == k)).map (·.2)

/-- Vocabulary lookup, `label_encoders[name]` guarded by `name in label_encoders`. -/
def vocabFind (encs : Vocab) (name : String) : Option (List String) :=
  (encs.find? (fun p => p.1 == name)).map (·.2)

/-- Python `str.strip()` (also the whitespace stripping `int()`/`float()` do). -/
def pyStrip (s : String) : String :=
  String.mk (((s.toList.dropWhile Char.isWhitespace).reverse.dropWhile Char.isWhitespace).reverse)

/-- Value of an unsigned decimal digit string. -/
def digitsVal (cs : List Char) : ℕ :=
  cs.foldl (fun a c => a * 10 + (c.toNat - 48)) 0

/-- Nonempty and all decimal digits. -/
def isDigits (cs : List Char) : Bool :=
  !cs.isEmpty && cs.all Char.isDigit

/-- Python `int(s)` on a string: optional sign around a digit string,
surrounding whitespace allowed; anything else raises (`none`). -/
def parseIntStr (s : String) : Option ℤ :=
  match (pyStrip s).toList with
  | '+' :: rest => if isDigits rest then some (digitsVal rest : ℤ) else none
  | '-' :: rest => if isDigits rest then some (-(digitsVal rest : ℤ)) else none
  | cs => if isDigits cs then some (digitsVal cs : ℤ) else none

/-- Mantissa of a Python float literal: `digits[.digits]`, at least one digit. -/
def parseMantissa (cs : List Char) : Option ℚ :=
  let ip := cs.takeWhile (· ≠ '.')
  let rest := cs.drop ip.length
  let fp := rest.drop 1
  if ip.all Char.isDigit && fp.all Char.isDigit && !(ip.isEmpty && fp.isEmpty)
      && (rest.isEmpty || rest.take 1 = ['.']) && !fp.contains '.' then
    some ((digitsVal ip : ℚ) + (digitsVal fp : ℚ) / ((10 : ℚ) ^ fp.length))
  else none

/-- Signed integer exponent of a float literal. -/
def parseExp (cs : List Char) : Option ℤ :=
  match cs with
  | '+' :: rest => if isDigits rest then some (digitsVal rest : ℤ) else none
  | '-' :: rest => if isDigits rest then some (-(digitsVal rest : ℤ)) else none
  | _ => if isDigits cs then some (digitsVal cs : ℤ) else none

/-- Python `float(s)` on a string: optional sign, decimal mantissa, optional
`e`/`E` exponent, surrounding whitespace allowed; otherwise raises (`none`).
(`inf`/`nan` spellings and digit underscores are outside the modelled inputs.) -/
def parseFloatStr (s : String) : Option ℚ :=
  let signed : List Char → Option ℚ := fun cs =>
    let core : List Char → Option ℚ := fun body =>
      let mant := body.takeWhile (fun c => c ≠ 'e' && c ≠ 'E')
      let rest := body.drop mant.length
      match rest with
      | [] => parseMantissa mant
      | _ :: ecs => do
          let m ← parseMantissa mant
          let e ← parseExp ecs
          pure (m * (10 : ℚ) ^ e)
    match cs with
    | '+' :: rest => core rest
    | '-' :: rest => (core rest).map Neg.neg
    | _ => core cs
  signed (pyStrip s).toList

/-- Python truncation toward zero, `int(float)`. -/
def truncToward0 (q : ℚ) : ℤ :=
  if 0 ≤ q then ⌊q⌋ else -⌊-q⌋

/-- Python `int(v)` on a JSON scalar. -/
def pyInt : PyVal → Option ℤ
  | .vNum q => some (truncToward0 q)
  | .vStr s => parseIntStr s

/-- Python `float(v)` on a JSON scalar. -/
def pyFloat : PyVal → Option ℚ
  | .vNum q => some q
  | .vStr s => parseFloatStr s

/-- `int(user_input.get(k, d))` in `build_complete_features`. -/
def getIntD (input : RawInput) (k : String) (d : ℤ) : Option ℤ :=
  match dictGet input k with
  | none => some d
  | some v => pyInt v

/-- `float(user_input.get(k, d))` in `build_complete_features`. -/
def getFloatD (input : RawInput) (k : String) (d : ℚ) : Option ℚ :=
  match dictGet input k with
  | none => some d
  | some v => pyFloat v

/-- `safe_encode(encoder_name, value)` from `build_complete_features`
(src/app.py lines 37–45): no vocabulary for the field ⇒ 0; known label ⇒ its
index in `classes_` (what `encoder.transform([value])[0]` returns); unknown
label ⇒ log a warning and return 0. Total — it never raises. -/
def safe_encode (encs : Vocab) (name : String) (value : PyVal) : ℕ :=
  match vocabFind encs name with
  | some cls =>
      match value with
      | .vStr s => if cls.contains s then cls.indexOf s else 0
      | .vNum _ => 0
  | none => 0

/-- The city → pollution-index table of slot 32 (src/app.py lines 144–147). -/
def cityPollution : List (String × ℚ) :=
  [("Mumbai", 80), ("Delhi", 90), ("Bengaluru", 60), ("Chennai", 70),
   ("Hyderabad", 65), ("Kolkata", 75), ("Pune", 55), ("Ahmedabad", 85)]

/-- `{...}.get(city, 65)`: dictionary lookup with default 65; a non-string
city never equals a string key. -/
def pollutionIndex : PyVal → ℚ
  | .vStr s => (((cityPollution.find? (fun p => p.1 == s)).map (·.2)).getD 65)
  | .vNum _ => 65

/-- The 43-entry feature list of src/app.py lines 48–182, in source order,
as a function of the extracted inputs. -/
def featureList (encs : Vocab) (city property_type furnishing parking facing : PyVal)
    (bhk bathrooms : ℤ) (area_sqft : ℚ) (age floor total_floors : ℤ) : List ℚ :=
  [ (safe_encode encs "City" city : ℚ),
    0,
    (safe_encode encs "Property_Type" property_type : ℚ),
    0,
    (bhk : ℚ),
    (bathrooms : ℚ),
    ((max 1 (bhk - 1) : ℤ) : ℚ),
    (floor : ℚ),
    (age : ℚ),
    0,
    (safe_encode encs "Furnishing" furnishing : ℚ),
    (safe_encode encs "Parking" parking : ℚ),
    (safe_encode encs "Facing" facing : ℚ),
    1,
    (if 3 < total_floors then 1 else 0),
    0,
    1,
    0,
    0,
    1,
    0,
    1,
    2.5,
    4.0,
    3.0,
    1.5,
    area_sqft * 2.5,
    1100.0,
    8.5,
    1,
    area_sqft * 12,
    pollutionIndex city,
    50.0,
    15.0,
    8.0,
    7.5,
    0,
    0,
    7.0,
    6.5,
    3.5,
    area_sqft,
    (total_floors : ℚ) ]

/-- `build_complete_features(user_input)` (src/app.py lines 20–184): extract
the inputs with their defaults (the `int`/`float` coercions may raise, hence
`Option`), then assemble the 43-entry vector. -/
def build_complete_features (encs : Vocab) (user_input : RawInput) : Option (List ℚ) :=
  match getIntD user_input "bedrooms" 2, getIntD user_input "bathrooms" 1,
        getFloatD user_input "area_sqft" 1000, getIntD user_input "age" 5,
        getIntD user_input "floor" 1, getIntD user_input "total_floors" 10 with
  | some bhk, some bathrooms, some area_sqft, some age, some floor, some total_floors =>
      some (featureList encs
        (dictGetD user_input "city" (.vStr "Mumbai"))
        (dictGetD user_input "property_type" (.vStr "Apartment"))
        (dictGetD user_input "furnishing" (.vStr "Unfurnished"))
        (dictGetD user_input "parking" (.vStr "No"))
        (dictGetD user_input "facing" (.vStr "North"))
        bhk bathrooms area_sqft age floor total_floors)
  | _, _, _, _, _, _ => none

example : (featureList [] (.vStr "x") (.vStr "x") (.vStr "x") (.vStr "x") (.vStr "x")
    2 1 1000 5 1 10).length = 43 := by rfl

example : safe_encode [("City", ["A", "B", "Mumbai"])] "City" (.vStr "Mumbai") = 2 := by rfl

example : build_complete_features [] [] =
    some (featureList [] (.vStr "Mumbai") (.vStr "Apartment") (.vStr "Unfurnished")
      (.vStr "No") (.vStr "North") 2 1 1000 5 1 10) := by rfl

example : parseIntStr " 42 " = some 42 := by rfl
example : parseIntStr "abc" = none := by rfl
example : parseFloatStr "3.5" = some (7/2) := by with_unfolding_all decide
example : parseFloatStr "-2e1" = some (-20) := by with_unfolding_all decide
example : parseFloatStr "x" = none := by rfl
example : pyStrip " Mumbai " = "Mumbai" := by rfl

/-! ## The `/predict` handler (src/app.py lines 190–262) -/

/-- The loaded model artifact: its declared feature count
(`model.n_features_in_`) and its inference operation
(`model.predict(features)[0]`), opaque to this layer. -/
structure Model where
  nFeatures : ℕ
  inferFn : List ℚ → ℚ

/-- A handler outcome: a JSON success payload, or a `(status, message)`
JSON error response. -/
inductive Response where
  | success (price : String) (price_lakhs : ℚ)
      (city property_type : String) (area_sqft : ℚ) (features_count : ℕ)
  | failure (status : ℕ) (error : String)
  deriving DecidableEq, Repr

/-- The `details.city` echo of a success response. -/
def Response.cityEcho : Response → Option String
  | .success _ _ c _ _ _ => some c
  | .failure _ _ => none

/-- Whether the handler answered with the success payload. -/
def Response.isSuccess : Response → Bool
  | .success _ _ _ _ _ _ => true
  | .failure _ _ => false

/-- `.strip()` on a fetched JSON value: a number has no `.strip`
(AttributeError, reaching the generic handler). -/
def stripVal : PyVal → Option String
  | .vStr s => some (pyStrip s)
  | .vNum _ => none

/-- `float(data.get("area_sqft", 1000))` in the handler's numeric check. -/
def areaOf (data : RawInput) : Option ℚ :=
  match dictGet data "area_sqft" with
  | none => some 1000
  | some v => pyFloat v

/-- The sanity corrections on the raw model output (src/app.py lines
234–239): negative ⇒ absolute value; then above 10000 ⇒ divide by 10. -/
def postprocess (prediction : ℚ) : ℚ :=
  let p := if prediction < 0 then |prediction| else prediction
  if 10000 < p then p / 10 else p

/-- Round half-to-even to an integer (what Python `round`/`format` use). -/
def roundHalfEven (q : ℚ) : ℤ :=
  if q - ⌊q⌋ < 1/2 then ⌊q⌋
  else if 1/2 < q - ⌊q⌋ then ⌊q⌋ + 1
  else if 2 ∣ ⌊q⌋ then ⌊q⌋ else ⌊q⌋ + 1

/-- Python `round(x, 2)` on the exact rational model of a float. -/
def round2 (q : ℚ) : ℚ :=
  (roundHalfEven (q * 100) : ℚ) / 100

/-- Two-digit zero-padded rendering of `n ∈ [0, 100)`. -/
def pad2 (n : ℤ) : String :=
  if n < 10 then "0" ++ toString n else toString n

/-- Python `f"{x:.2f}"`: fixed-point with exactly two decimals. -/
def format2 (q : ℚ) : String :=
  let n := roundHalfEven (|q| * 100)
  (if q < 0 then "-" else "") ++ toString (n / 100) ++ "." ++ pad2 (n % 100)

/-- `f"₹ {price_lakhs:.2f} Lakhs"` (src/app.py line 243). -/
def priceFormatted (price_lakhs : ℚ) : String :=
  "₹ " ++ format2 price_lakhs ++ " Lakhs"

/-- The `/predict` handler (src/app.py lines 190–262), for a given loaded
state. Order of checks follows the source: artifact availability, required
non-empty `city`/`property_type` after `.strip()`, `area_sqft` numeric
check, feature building, feature-count check, inference, post-processing.
Exceptions escaping to the outer `except` (a non-string `city`/
`property_type`, or an unparseable numeric inside
`build_complete_features`) give the generic 500 answer, whose `str(e)`
detail is abstracted away here. -/
def predictHandler (model : Option Model) (encoders : Option Vocab)
    (data : RawInput) : Response :=
  match model, encoders with
  | some m, some encs =>
    match stripVal (dictGetD data "city" (.vStr "")),
          stripVal (dictGetD data "property_type" (.vStr "")) with
    | some city, some property_type =>
      if city = "" ∨ property_type = "" then
        .failure 400 "City and Property Type are required"
      else
        match areaOf data with
        | none => .failure 400 "Invalid area value"
        | some area_sqft =>
          if area_sqft ≤ 0 then .failure 400 "Area must be greater than 0"
          else
            match build_complete_features encs data with
            | none => .failure 500 "Prediction failed: ValueError"
            | some feats =>
              if feats.length ≠ m.nFeatures then
                .failure 400 ("Feature mismatch: got " ++ toString feats.length
                  ++ ", expected " ++ toString m.nFeatures)
              else
                let price_lakhs := postprocess (m.inferFn feats)
                .success (priceFormatted price_lakhs) (round2 price_lakhs)
                  city property_type area_sqft feats.length
    | _, _ => .failure 500 "Prediction failed: AttributeError"
  | _, _ => .failure 500 "Model not loaded properly"

example : postprocess (-12) = 12 := by with_unfolding_all decide
example : postprocess 15000 = 1500 := by with_unfolding_all decide
example : round2 (55 : ℚ) = 55 := by with_unfolding_all decide
example : format2 (55 : ℚ) = "55.00" := by with_unfolding_all decide
example : priceFormatted 55 = "₹ 55.00 Lakhs" := by with_unfolding_all decide

/-! ## Shared helper lemmas and concrete fixtures -/

/-- A concrete label-encoder fixture for witnesses (the real pickled artifact
is opaque; any vocabulary works for the statements below). -/
def sampleVocab : Vocab :=
  [("City", ["Ahmedabad", "Bengaluru", "Chennai", "Delhi", "Hyderabad",
             "Kolkata", "Mumbai", "Pune"])]

/-- Reduction of the handler along the path where all validation passes. -/
theorem predictHandler_reduce (m : Model) (encs : Vocab) (data : RawInput)
    (city property_type : String) (area_sqft : ℚ) (feats : List ℚ)
    (hc : stripVal (dictGetD data "city" (.vStr "")) = some city)
    (hp : stripVal (dictGetD data "property_type" (.vStr "")) = some property_type)
    (hne : ¬(city = "" ∨ property_type = ""))
    (ha : areaOf data = some area_sqft)
    (hpos : ¬ area_sqft ≤ 0)
    (hb : build_complete_features encs data = some feats) :
    predictHandler (some m) (some encs) data =
      if feats.length ≠ m.nFeatures then
        Response.failure 400 ("Feature mismatch: got " ++ toString feats.length
          ++ ", expected " ++ toString m.nFeatures)
      else
        Response.success (priceFormatted (postprocess (m.inferFn feats)))
          (round2 (postprocess (m.inferFn feats))) city property_type area_sqft
          feats.length := by
  simp only [predictHandler, hc, hp, if_neg hne, ha, if_neg hpos, hb]

/-- Reduction of the handler when `build_complete_features` raises. -/
theorem predictHandler_reduce_buildFail (m : Model) (encs : Vocab) (data : RawInput)
    (city property_type : String) (area_sqft : ℚ)
    (hc : stripVal (dictGetD data "city" (.vStr "")) = some city)
    (hp : stripVal (dictGetD data "property_type" (.vStr "")) = some property_type)
    (hne : ¬(city = "" ∨ property_type = ""))
    (ha : areaOf data = some area_sqft)
    (hpos : ¬ area_sqft ≤ 0)
    (hb : build_complete_features encs data = none) :
    predictHandler (some m) (some encs) data =
      Response.failure 500 "Prediction failed: ValueError" := by
  simp only [predictHandler, hc, hp, if_neg hne, ha, if_neg hpos, hb]

/-- `List.contains` agrees with decidable membership (strings have a lawful
`BEq`). -/
theorem contains_eq_decide_mem (cls : List String) (s : String) :
    cls.contains s = decide (s ∈ cls) := by
  simp [List.contains, List.elem_eq_mem]

/-! ## Claims -/

/-- C1: every feature vector `build_complete_features` returns (it returns
one exactly when the `int`/`float` coercions of the supplied numeric fields
succeed, which is the case for every input the validator accepts) has length
exactly 43; and on an input with every optional field absent the defaults
city="Mumbai", property_type="Apartment", bedrooms=2, bathrooms=1,
area_sqft=1000, age=5, floor=1, total_floors=10, furnishing="Unfurnished",
parking="No", facing="North" are applied, again giving 43 entries. -/
theorem c1_build_length_43 :
    (∀ (encs : Vocab) (input : RawInput) (feats : List ℚ),
      build_complete_features encs input = some feats → feats.length = 43) ∧
    (∀ encs : Vocab,
      build_complete_features encs [] =
        some (featureList encs (.vStr "Mumbai") (.vStr "Apartment")
          (.vStr "Unfurnished") (.vStr "No") (.vStr "North") 2 1 1000 5 1 10) ∧
      (featureList encs (.vStr "Mumbai") (.vStr "Apartment")
          (.vStr "Unfurnished") (.vStr "No") (.vStr "North") 2 1 1000 5 1 10).length
        = 43) := by
  constructor
  · intro encs input feats h
    unfold build_complete_features at h
    split at h
    · injection h with h'
      subst h'
      rfl
    · exact Option.noConfusion h
  · intro encs
    exact ⟨rfl, rfl⟩

/-- C1 witness: a concrete vocabulary and the empty request give the default
feature vector, of length 43. -/
theorem c1_build_length_43_witness :
    (featureList sampleVocab (.vStr "Mumbai") (.vStr "Apartment")
      (.vStr "Unfurnished") (.vStr "No") (.vStr "North") 2 1 1000 5 1 10).length
      = 43 :=
  c1_build_length_43.1 sampleVocab [] _ rfl

/-- C2: post-processing applies, in order, sign correction (absolute value
when negative), then the one-shot magnitude cap (divide by 10 above 10000),
then rounding to 2 decimals; −12 finalizes to 12, 15000 to 1500 (and the
order matters: −15000 also caps to 1500), and the display string is the
2-decimal currency format followed by "Lakhs". -/
theorem c2_postprocess :
    (∀ raw : ℚ, postprocess raw =
      (if (if raw < 0 then |raw| else raw) > 10000
        then (if raw < 0 then |raw| else raw) / 10
        else (if raw < 0 then |raw| else raw))) ∧
    round2 (postprocess (-12)) = 12 ∧
    round2 (postprocess 15000) = 1500 ∧
    round2 (postprocess (-15000)) = 1500 ∧
    priceFormatted (postprocess 55) = "₹ 55.00 Lakhs" ∧
    round2 (postprocess 55) = 55 := by
  refine ⟨fun raw => rfl, ?_, ?_, ?_, ?_, ?_⟩ <;> with_unfolding_all decide

/-- C4: `safe_encode` is total (it never raises): an unknown field name
yields 0, a label present in the field's `classes_` yields its stable index
there, and any absent label yields 0. -/
theorem c4_safe_encode_fallback :
    ∀ (encs : Vocab) (name s : String),
      (vocabFind encs name = none → safe_encode encs name (.vStr s) = 0) ∧
      (∀ cls, vocabFind encs name = some cls →
        (s ∈ cls → safe_encode encs name (.vStr s) = cls.indexOf s) ∧
        (s ∉ cls → safe_encode encs name (.vStr s) = 0)) := by
  intro encs name s
  refine ⟨fun h => by simp [safe_encode, h], fun cls h => ⟨fun hs => ?_, fun hs => ?_⟩⟩
  · simp [safe_encode, h, contains_eq_decide_mem, hs]
  · simp [safe_encode, h, contains_eq_decide_mem, hs]

/-- C4 witness: on a concrete vocabulary, a known city gets its index, an
unknown city and an unknown field name both get 0. -/
theorem c4_safe_encode_fallback_witness :
    safe_encode sampleVocab "City" (.vStr "Mumbai")
        = (["Ahmedabad", "Bengaluru", "Chennai", "Delhi", "Hyderabad",
            "Kolkata", "Mumbai", "Pune"] : List String).indexOf "Mumbai" ∧
    safe_encode sampleVocab "City" (.vStr "Atlantis") = 0 ∧
    safe_encode sampleVocab "Locality" (.vStr "Andheri") = 0 :=
  ⟨((c4_safe_encode_fallback sampleVocab "City" "Mumbai").2 _ rfl).1 (by decide),
   ((c4_safe_encode_fallback sampleVocab "City" "Atlantis").2 _ rfl).2 (by decide),
   (c4_safe_encode_fallback sampleVocab "Locality" "Andheri").1 rfl⟩

/-- C8: encoding is deterministic — for one loaded vocabulary, two calls of
`safe_encode` with the same field name and the same label give the same
code (the embedding of `safe_encode` is a pure function of the vocabulary,
the field name and the value, with no other state). -/
theorem c8_encode_deterministic :
    ∀ (encs : Vocab) (name : String) (v₁ v₂ : PyVal),
      v₁ = v₂ → safe_encode encs name v₁ = safe_encode encs name v₂ := by
  intro encs name v₁ v₂ h
  rw [h]

/-- C8 witness: two identical concrete calls agree. -/
theorem c8_encode_deterministic_witness :
    safe_encode sampleVocab "City" (.vStr "Pune")
      = safe_encode sampleVocab "City" (.vStr "Pune") :=
  c8_encode_deterministic sampleVocab "City" (.vStr "Pune") (.vStr "Pune") rfl

/-- C10: the magnitude cap is a single conditional division: the
post-processed value is nonnegative for every raw score, any raw score of
absolute value above 100000 still post-processes to a value above the 10000
threshold, and 200000 post-processes to 20000. -/
theorem c10_cap_applied_once :
    (∀ raw : ℚ, 0 ≤ postprocess raw) ∧
    (∀ raw : ℚ, 100000 < |raw| → 10000 < postprocess raw) ∧
    postprocess 200000 = 20000 := by
  have habs : ∀ raw : ℚ, (if raw < 0 then |raw| else raw) = |raw| := by
    intro raw
    by_cases h : raw < 0
    · rw [if_pos h]
    · rw [if_neg h, abs_of_nonneg (not_lt.mp h)]
  have hpp : ∀ raw : ℚ, postprocess raw = if 10000 < |raw| then |raw| / 10 else |raw| := by
    intro raw
    unfold postprocess
    rw [habs]
  refine ⟨?_, ?_, by norm_num [postprocess]⟩
  · intro raw
    rw [hpp]
    split
    · positivity
    · exact abs_nonneg raw
  · intro raw h
    rw [hpp, if_pos (lt_trans (by norm_num) h)]
    rw [lt_div_iff₀ (by norm_num : (0:ℚ) < 10)]
    linarith

/-- Reduction of the handler when the parsed area is nonpositive. -/
theorem predictHandler_reduce_areaNonpos (m : Model) (encs : Vocab) (data : RawInput)
    (city property_type : String) (area_sqft : ℚ)
    (hc : stripVal (dictGetD data "city" (.vStr "")) = some city)
    (hp : stripVal (dictGetD data "property_type" (.vStr "")) = some property_type)
    (hne : ¬(city = "" ∨ property_type = ""))
    (ha : areaOf data = some area_sqft)
    (hq : area_sqft ≤ 0) :
    predictHandler (some m) (some encs) data =
      Response.failure 400 "Area must be greater than 0" := by
  simp only [predictHandler, hc, hp, if_neg hne, ha, if_pos hq]

/-- Reduction of the handler when the area value does not parse. -/
theorem predictHandler_reduce_areaNone (m : Model) (encs : Vocab) (data : RawInput)
    (city property_type : String)
    (hc : stripVal (dictGetD data "city" (.vStr "")) = some city)
    (hp : stripVal (dictGetD data "property_type" (.vStr "")) = some property_type)
    (hne : ¬(city = "" ∨ property_type = ""))
    (ha : areaOf data = none) :
    predictHandler (some m) (some encs) data =
      Response.failure 400 "Invalid area value" := by
  simp only [predictHandler, hc, hp, if_neg hne, ha]

/-- C3: whenever the numeric fields parse (to `bhk`, `bath`, `area`, `age`,
`fl`, `tf`), the built vector's formula-derived slots match the schema table:
slot 5 (BHK) = bedrooms, slot 7 (Balconies) = max(1, bedrooms−1), slot 15
(Lift_Available) = 1 iff total_floors > 3, slot 27 (Monthly_Maintenance) =
area×2.5, slot 31 (Property_Tax_Annual) = area×12, slot 32 (Pollution_Index)
= the fixed city table with default 65 applied to the raw city value,
slot 42 (Carpet_Area_sqft) = area, slot 43 (Total_Floors) = total_floors.
(Slots are 1-based in the schema; `feats[k]?` below is 0-based.) -/
theorem c3_formula_slots :
    ∀ (encs : Vocab) (input : RawInput) (bhk bath : ℤ) (area : ℚ) (age fl tf : ℤ),
      getIntD input "bedrooms" 2 = some bhk →
      getIntD input "bathrooms" 1 = some bath →
      getFloatD input "area_sqft" 1000 = some area →
      getIntD input "age" 5 = some age →
      getIntD input "floor" 1 = some fl →
      getIntD input "total_floors" 10 = some tf →
      ∃ feats, build_complete_features encs input = some feats ∧
        feats[4]? = some (bhk : ℚ) ∧
        feats[6]? = some ((max 1 (bhk - 1) : ℤ) : ℚ) ∧
        feats[14]? = some (if 3 < tf then 1 else 0) ∧
        feats[26]? = some (area * 2.5) ∧
        feats[30]? = some (area * 12) ∧
        feats[31]? = some (pollutionIndex (dictGetD input "city" (.vStr "Mumbai"))) ∧
        feats[41]? = some area ∧
        feats[42]? = some (tf : ℚ) := by
  intro encs input bhk bath area age fl tf h1 h2 h3 h4 h5 h6
  refine ⟨featureList encs
      (dictGetD input "city" (.vStr "Mumbai"))
      (dictGetD input "property_type" (.vStr "Apartment"))
      (dictGetD input "furnishing" (.vStr "Unfurnished"))
      (dictGetD input "parking" (.vStr "No"))
      (dictGetD input "facing" (.vStr "North"))
      bhk bath area age fl tf, ?_, rfl, rfl, rfl, rfl, rfl, rfl, rfl, rfl⟩
  unfold build_complete_features
  rw [h1, h2, h3, h4, h5, h6]

/-- C3 fixture: the claim's example request (unknown city "Atlantis",
bedrooms 3, area 1200 sqft). -/
def c3input : RawInput :=
  [("city", .vStr "Atlantis"), ("property_type", .vStr "Apartment"),
   ("bedrooms", .vNum 3), ("area_sqft", .vNum 1200)]

/-- C3 witness: bedrooms=3, area_sqft=1200 give BHK slot 3,
Monthly_Maintenance 3000, Property_Tax_Annual 14400, and the unknown city
"Atlantis" gives Pollution_Index 65. -/
theorem c3_formula_slots_witness :
    ∃ feats, build_complete_features sampleVocab c3input = some feats ∧
      feats[4]? = some 3 ∧ feats[6]? = some 2 ∧ feats[26]? = some 3000 ∧
      feats[30]? = some 14400 ∧ feats[31]? = some 65 := by
  obtain ⟨feats, hb, h5, h7, h15, h27, h31, h32, h42, h43⟩ :=
    c3_formula_slots sampleVocab c3input 3 1 1200 5 1 10
      (by with_unfolding_all decide) (by with_unfolding_all decide)
      (by with_unfolding_all decide) (by with_unfolding_all decide)
      (by with_unfolding_all decide) (by with_unfolding_all decide)
  refine ⟨feats, hb, ?_, ?_, ?_, ?_, ?_⟩
  · rw [h5]; norm_num
  · rw [h7]; norm_num
  · rw [h27]; norm_num
  · rw [h31]; norm_num
  · rw [h32]; rfl

/-- C5 fixture: a valid request whose `bedrooms` value is the given string. -/
def c5input (s : String) : RawInput :=
  [("city", .vStr "Mumbai"), ("property_type", .vStr "Apartment"),
   ("bedrooms", .vStr s)]

/-- C5 counterexample: with `bedrooms = "abc"` the request passes the
handler's validation but `int("abc")` raises inside the feature builder, so
the response is the generic 500 "Prediction failed" answer — not a
client-facing 400 validation error as the claim states. -/
theorem c5_counterexample :
    predictHandler (some ⟨43, fun _ => 55⟩) (some sampleVocab) (c5input "abc")
      = Response.failure 500 "Prediction failed: ValueError" ∧
    ∀ msg : String,
      predictHandler (some ⟨43, fun _ => 55⟩) (some sampleVocab) (c5input "abc")
        ≠ Response.failure 400 msg := by
  have h : predictHandler (some ⟨43, fun _ => 55⟩) (some sampleVocab) (c5input "abc")
      = Response.failure 500 "Prediction failed: ValueError" := by
    apply predictHandler_reduce_buildFail ⟨43, fun _ => 55⟩ sampleVocab
      (c5input "abc") "Mumbai" "Apartment" 1000 rfl rfl (by decide) rfl (by norm_num)
    rfl
  exact ⟨h, fun msg => by rw [h]; simp⟩

/-- C5 fixture: a valid request supplying the given integer field with the
given string value. -/
def c5inputField (field s : String) : RawInput :=
  [("city", .vStr "Mumbai"), ("property_type", .vStr "Apartment"),
   (field, .vStr s)]

/-- C5 (amended): supplying any of `bedrooms`, `bathrooms`, `age`, `floor`
or `total_floors` with a value that is unparseable as an integer makes the
request fail fast — the build aborts instead of silently defaulting — but
the failure escapes to the generic exception handler and is reported as an
HTTP 500 "Prediction failed" error, not as a dedicated client-facing 400
validation error. -/
theorem c5_unparseable_int_fails_fast :
    ∀ (m : Model) (encs : Vocab) (field s : String),
      field ∈ ["bedrooms", "bathrooms", "age", "floor", "total_floors"] →
      parseIntStr s = none →
      predictHandler (some m) (some encs) (c5inputField field s)
        = Response.failure 500 "Prediction failed: ValueError" := by
  intro m encs field s hf h
  simp only [List.mem_cons, List.mem_singleton, List.not_mem_nil, or_false] at hf
  rcases hf with rfl | rfl | rfl | rfl | rfl
  · apply predictHandler_reduce_buildFail m encs (c5inputField "bedrooms" s)
      "Mumbai" "Apartment" 1000 rfl rfl (by decide) rfl (by norm_num)
    have hg : getIntD (c5inputField "bedrooms" s) "bedrooms" 2 = none := h
    unfold build_complete_features
    rw [hg]
  · apply predictHandler_reduce_buildFail m encs (c5inputField "bathrooms" s)
      "Mumbai" "Apartment" 1000 rfl rfl (by decide) rfl (by norm_num)
    have hg : getIntD (c5inputField "bathrooms" s) "bathrooms" 1 = none := h
    unfold build_complete_features
    rw [hg]
    rfl
  · apply predictHandler_reduce_buildFail m encs (c5inputField "age" s)
      "Mumbai" "Apartment" 1000 rfl rfl (by decide) rfl (by norm_num)
    have hg : getIntD (c5inputField "age" s) "age" 5 = none := h
    unfold build_complete_features
    rw [hg]
    rfl
  · apply predictHandler_reduce_buildFail m encs (c5inputField "floor" s)
      "Mumbai" "Apartment" 1000 rfl rfl (by decide) rfl (by norm_num)
    have hg : getIntD (c5inputField "floor" s) "floor" 1 = none := h
    unfold build_complete_features
    rw [hg]
    rfl
  · apply predictHandler_reduce_buildFail m encs (c5inputField "total_floors" s)
      "Mumbai" "Apartment" 1000 rfl rfl (by decide) rfl (by norm_num)
    have hg : getIntD (c5inputField "total_floors" s) "total_floors" 10 = none := h
    unfold build_complete_features
    rw [hg]
    rfl

/-- C5 witness: the amended statement at each of the five enumerated fields
with the unparseable value "two". -/
theorem c5_unparseable_int_fails_fast_witness :
    predictHandler (some ⟨43, fun _ => 0⟩) (some sampleVocab)
        (c5inputField "bedrooms" "two")
      = Response.failure 500 "Prediction failed: ValueError" ∧
    predictHandler (some ⟨43, fun _ => 0⟩) (some sampleVocab)
        (c5inputField "bathrooms" "two")
      = Response.failure 500 "Prediction failed: ValueError" ∧
    predictHandler (some ⟨43, fun _ => 0⟩) (some sampleVocab)
        (c5inputField "age" "two")
      = Response.failure 500 "Prediction failed: ValueError" ∧
    predictHandler (some ⟨43, fun _ => 0⟩) (some sampleVocab)
        (c5inputField "floor" "two")
      = Response.failure 500 "Prediction failed: ValueError" ∧
    predictHandler (some ⟨43, fun _ => 0⟩) (some sampleVocab)
        (c5inputField "total_floors" "two")
      = Response.failure 500 "Prediction failed: ValueError" :=
  ⟨c5_unparseable_int_fails_fast ⟨43, fun _ => 0⟩ sampleVocab "bedrooms" "two"
      (by decide) rfl,
   c5_unparseable_int_fails_fast ⟨43, fun _ => 0⟩ sampleVocab "bathrooms" "two"
      (by decide) rfl,
   c5_unparseable_int_fails_fast ⟨43, fun _ => 0⟩ sampleVocab "age" "two"
      (by decide) rfl,
   c5_unparseable_int_fails_fast ⟨43, fun _ => 0⟩ sampleVocab "floor" "two"
      (by decide) rfl,
   c5_unparseable_int_fails_fast ⟨43, fun _ => 0⟩ sampleVocab "total_floors" "two"
      (by decide) rfl⟩

/-- C6 fixture: a valid request whose `area_sqft` is the given value. -/
def c6input (v : PyVal) : RawInput :=
  [("city", .vStr "Mumbai"), ("property_type", .vStr "Apartment"),
   ("area_sqft", v)]

/-- C6: a supplied `area_sqft` parsing to a number ≤ 0 fails validation with
the InvalidArea client error ("Area must be greater than 0", HTTP 400); a
supplied `area_sqft` that does not parse fails with the InvalidNumeric
client error ("Invalid area value", HTTP 400). Both conclusions hold for
every model — in particular its inference function is never consulted, so
no prediction is attempted. -/
theorem c6_area_validation :
    (∀ (m : Model) (encs : Vocab) (q : ℚ), q ≤ 0 →
      predictHandler (some m) (some encs) (c6input (.vNum q))
        = Response.failure 400 "Area must be greater than 0") ∧
    (∀ (m : Model) (encs : Vocab) (s : String), parseFloatStr s = none →
      predictHandler (some m) (some encs) (c6input (.vStr s))
        = Response.failure 400 "Invalid area value") := by
  constructor
  · intro m encs q hq
    exact predictHandler_reduce_areaNonpos m encs (c6input (.vNum q)) "Mumbai"
      "Apartment" q rfl rfl (by decide) rfl hq
  · intro m encs s hs
    apply predictHandler_reduce_areaNone m encs (c6input (.vStr s)) "Mumbai"
      "Apartment" rfl rfl (by decide)
    have : areaOf (c6input (.vStr s)) = parseFloatStr s := rfl
    rw [this, hs]

/-- C6 witness: the two branches at `area_sqft = 0` and at
`area_sqft = "not-a-number"`, with two different inference functions. -/
theorem c6_area_validation_witness :
    predictHandler (some ⟨43, fun _ => 55⟩) (some sampleVocab) (c6input (.vNum 0))
      = Response.failure 400 "Area must be greater than 0" ∧
    predictHandler (some ⟨43, fun _ => 77⟩) (some sampleVocab)
        (c6input (.vStr "not-a-number"))
      = Response.failure 400 "Invalid area value" :=
  ⟨c6_area_validation.1 ⟨43, fun _ => 55⟩ sampleVocab 0 le_rfl,
   c6_area_validation.2 ⟨43, fun _ => 77⟩ sampleVocab "not-a-number" rfl⟩

/-- C7 fixture: a minimal fully valid request. -/
def c7input : RawInput :=
  [("city", .vStr "Mumbai"), ("property_type", .vStr "Apartment")]

/-- C7 counterexample: against a model declaring 50 features, a valid
request is rejected with HTTP 400 — the same client-error class the
handler uses for validation failures ("City and Property Type are
required" is also a 400) — never with a 5xx server-side class; so the
claimed server-side classification of the mismatch is false. -/
theorem c7_counterexample :
    predictHandler (some ⟨50, fun _ => 55⟩) (some sampleVocab) c7input
      = Response.failure 400 "Feature mismatch: got 43, expected 50" ∧
    (∀ msg : String, predictHandler (some ⟨50, fun _ => 55⟩) (some sampleVocab) c7input
      ≠ Response.failure 500 msg) ∧
    predictHandler (some ⟨50, fun _ => 55⟩) (some sampleVocab)
        [("city", .vStr ""), ("property_type", .vStr "Apartment")]
      = Response.failure 400 "City and Property Type are required" := by
  have hb : build_complete_features sampleVocab c7input =
      some (featureList sampleVocab (.vStr "Mumbai") (.vStr "Apartment")
        (.vStr "Unfurnished") (.vStr "No") (.vStr "North") 2 1 1000 5 1 10) := rfl
  have h : predictHandler (some ⟨50, fun _ => 55⟩) (some sampleVocab) c7input
      = Response.failure 400 "Feature mismatch: got 43, expected 50" := by
    rw [predictHandler_reduce ⟨50, fun _ => 55⟩ sampleVocab c7input "Mumbai"
      "Apartment" 1000 _ rfl rfl (by decide) rfl (by norm_num) hb]
    rw [if_pos (by decide)]
    rfl
  exact ⟨h, fun msg => by rw [h]; simp, rfl⟩

/-- C7 (amended): a feature-count mismatch is rejected with an HTTP 400
error — the same client-error status class the handler uses for validation
failures — carrying the "Feature mismatch" message; unavailability of the
model or of the encoders is reported as an HTTP 500 "Model not loaded
properly" error (not a distinct service-unavailable class). -/
theorem c7_error_classes :
    (∀ (m : Model) (encs : Vocab), m.nFeatures ≠ 43 →
      predictHandler (some m) (some encs) c7input
        = Response.failure 400
            ("Feature mismatch: got 43, expected " ++ toString m.nFeatures)) ∧
    (∀ (encs : Option Vocab) (data : RawInput),
      predictHandler none encs data
        = Response.failure 500 "Model not loaded properly") ∧
    (∀ (m : Model) (data : RawInput),
      predictHandler (some m) none data
        = Response.failure 500 "Model not loaded properly") := by
  refine ⟨?_, fun encs data => rfl, fun m data => rfl⟩
  intro m encs h
  have hb : build_complete_features encs c7input =
      some (featureList encs (.vStr "Mumbai") (.vStr "Apartment")
        (.vStr "Unfurnished") (.vStr "No") (.vStr "North") 2 1 1000 5 1 10) := rfl
  rw [predictHandler_reduce m encs c7input "Mumbai" "Apartment" 1000 _ rfl rfl
    (by decide) rfl (by norm_num) hb]
  have hlen : (featureList encs (.vStr "Mumbai") (.vStr "Apartment")
      (.vStr "Unfurnished") (.vStr "No") (.vStr "North") 2 1 1000 5 1 10).length
      = 43 := rfl
  rw [if_pos (by rw [hlen]; exact Ne.symm h), hlen]
  rfl

/-- C7 witness: the amended statement against a 50-feature model and with
a missing model artifact. -/
theorem c7_error_classes_witness :
    predictHandler (some ⟨50, fun _ => 0⟩) (some sampleVocab) c7input
      = Response.failure 400 "Feature mismatch: got 43, expected 50" ∧
    predictHandler none (some sampleVocab) c7input
      = Response.failure 500 "Model not loaded properly" :=
  ⟨c7_error_classes.1 ⟨50, fun _ => 0⟩ sampleVocab (by decide),
   c7_error_classes.2.1 (some sampleVocab) c7input⟩

/-- C9 fixture: the known city "Mumbai" surrounded by whitespace. -/
def c9input : RawInput :=
  [("city", .vStr " Mumbai "), ("property_type", .vStr "Apartment")]

/-- C9: `city`/`property_type` are trimmed only for the non-empty check and
the response echo; the feature builder re-reads the raw values. So a
request whose city is a known label surrounded by whitespace (" Mumbai ",
with "Mumbai" in the City vocabulary but " Mumbai " not) passes validation
and succeeds, yet slot 1 encodes to the unknown-value fallback 0, slot 32
(Pollution_Index) falls to the default 65, and the response echoes the
trimmed city "Mumbai". -/
theorem c9_trim_only_for_validation :
    ∀ (m : Model) (encs : Vocab) (cls : List String),
      m.nFeatures = 43 →
      vocabFind encs "City" = some cls →
      "Mumbai" ∈ cls →
      " Mumbai " ∉ cls →
      ∃ feats, build_complete_features encs c9input = some feats ∧
        feats[0]? = some 0 ∧
        feats[31]? = some 65 ∧
        (predictHandler (some m) (some encs) c9input).isSuccess = true ∧
        (predictHandler (some m) (some encs) c9input).cityEcho = some "Mumbai" := by
  intro m encs cls hm hv _hknown hout
  have hb : build_complete_features encs c9input =
      some (featureList encs (.vStr " Mumbai ") (.vStr "Apartment")
        (.vStr "Unfurnished") (.vStr "No") (.vStr "North") 2 1 1000 5 1 10) := rfl
  have henc : safe_encode encs "City" (.vStr " Mumbai ") = 0 := by
    simp [safe_encode, hv, contains_eq_decide_mem, hout]
  have hred := predictHandler_reduce m encs c9input "Mumbai" "Apartment" 1000 _
    rfl rfl (by decide) rfl (by norm_num) hb
  have hcond : ¬((featureList encs (.vStr " Mumbai ") (.vStr "Apartment")
      (.vStr "Unfurnished") (.vStr "No") (.vStr "North") 2 1 1000 5 1 10).length
      ≠ m.nFeatures) := by
    rw [hm]
    exact fun hne => hne rfl
  rw [if_neg hcond] at hred
  refine ⟨_, hb, ?_, rfl, ?_, ?_⟩
  · show some ((safe_encode encs "City" (.vStr " Mumbai ") : ℕ) : ℚ) = some 0
    rw [henc]
    norm_num
  · rw [hred]
    rfl
  · rw [hred]
    rfl

/-- C9 witness: the statement at a concrete model and vocabulary. -/
theorem c9_trim_only_for_validation_witness :
    ∃ feats, build_complete_features sampleVocab c9input = some feats ∧
      feats[0]? = some 0 ∧
      feats[31]? = some 65 ∧
      (predictHandler (some ⟨43, fun _ => 55⟩) (some sampleVocab) c9input).isSuccess
        = true ∧
      (predictHandler (some ⟨43, fun _ => 55⟩) (some sampleVocab) c9input).cityEcho
        = some "Mumbai" :=
  c9_trim_only_for_validation ⟨43, fun _ => 55⟩ sampleVocab
    ["Ahmedabad", "Bengaluru", "Chennai", "Delhi", "Hyderabad",
     "Kolkata", "Mumbai", "Pune"] rfl rfl (by decide) (by decide)

/-- C10 witness: 200000 exceeds the 100000 bound in absolute value and its
post-processed value still exceeds the 10000 threshold. -/
theorem c10_cap_applied_once_witness :
    (100000:ℚ) < |(200000:ℚ)| ∧ 10000 < postprocess 200000 :=
  ⟨by norm_num, c10_cap_applied_once.2.1 200000 (by norm_num)⟩
